import Mathlib

/-!
Shallow embedding of the ATLS audit-log service core: the tenant session
manager (src/middleware/tenantContext.js), the batch ingestor and query
engine (src/services/auditService.js), the route-level request validation
(src/routes/auditRoutes.js, zod schemas), and the schema-store contract
from the migration (tbl_audit_trail_logs, its varchar bounds, the unique
process_id constraint and the tenant_isolation row-level-security policy).
-/

namespace Atls

/-! ## JSON documents (jsonb values of the metadata column) -/

/-- A JSON document, as stored in the jsonb `metadata` column. -/
inductive Json where
  | null : Json
  | bool (b : Bool) : Json
  | num (n : Int) : Json
  | str (s : String) : Json
  | arr (elems : List Json) : Json
  | obj (fields : List (String × Json)) : Json
deriving Repr

mutual

/-- Structural equality of JSON documents. -/
def jsonBeq : Json → Json → Bool
  | Json.null, Json.null => true
  | Json.bool a, Json.bool b => a == b
  | Json.num a, Json.num b => a == b
  | Json.str a, Json.str b => a == b
  | Json.arr a, Json.arr b => jsonListBeq a b
  | Json.obj a, Json.obj b => jsonFieldsBeq a b
  | _, _ => false

/-- Elementwise equality of JSON arrays. -/
def jsonListBeq : List Json → List Json → Bool
  | [], [] => true
  | a :: as_, b :: bs => jsonBeq a b && jsonListBeq as_ bs
  | _, _ => false

/-- Elementwise equality of JSON object field lists. -/
def jsonFieldsBeq : List (String × Json) → List (String × Json) → Bool
  | [], [] => true
  | (ka, va) :: as_, (kb, vb) :: bs => ka == kb && jsonBeq va vb && jsonFieldsBeq as_ bs
  | _, _ => false

end

mutual

/-- PostgreSQL jsonb containment `doc @> filt`: objects contain every
field of the filter (recursively), arrays contain every element of the
filter array, scalars must be equal. -/
def jsonContains : Json → Json → Bool
  | Json.obj d, Json.obj f => fieldsContained d f
  | Json.arr d, Json.arr f => elemsContained d f
  | d, f => jsonBeq d f

/-- Every filter field is matched by some document field. -/
def fieldsContained (d : List (String × Json)) : List (String × Json) → Bool
  | [] => true
  | (k, fv) :: rest => fieldMatch d k fv && fieldsContained d rest

/-- Some document field has the given key and contains the given value. -/
def fieldMatch : List (String × Json) → String → Json → Bool
  | [], _, _ => false
  | (k2, dv) :: rest, k, fv => (k2 == k && jsonContains dv fv) || fieldMatch rest k fv

/-- Every filter element is contained in some document element. -/
def elemsContained (d : List Json) : List Json → Bool
  | [] => true
  | fv :: rest => elemMatch d fv && elemsContained d rest

/-- Some document element contains the given filter element. -/
def elemMatch : List Json → Json → Bool
  | [], _ => false
  | dv :: rest, fv => jsonContains dv fv || elemMatch rest fv

end

/-! ## JSON text parsing

Models the schema store casting query text to jsonb (`$n::jsonb` in
`searchLogs`): an invalid document makes the statement raise an error.
The store is an external collaborator; this parser follows the JSON
grammar its cast accepts. -/

/-- The left curly brace character. -/
def lbrace : Char := Char.ofNat 123

/-- The right curly brace character. -/
def rbrace : Char := Char.ofNat 125

/-- The double quote character. -/
def dquote : Char := Char.ofNat 34

/-- The backslash character. -/
def bslash : Char := Char.ofNat 92

/-- JSON insignificant whitespace. -/
def isWsChar (c : Char) : Bool :=
  c == ' ' || c == Char.ofNat 10 || c == Char.ofNat 9 || c == Char.ofNat 13

/-- Drop leading whitespace. -/
def dropWs : List Char → List Char
  | [] => []
  | c :: cs => if isWsChar c then dropWs cs else c :: cs

/-- Consume the body of a JSON string after the opening quote; escape
sequences keep the escaped character verbatim (enough to lex past them). -/
def lexStr (fuel : Nat) (cs : List Char) : Option (List Char × List Char) :=
  match fuel, cs with
  | 0, _ => none
  | _ + 1, [] => none
  | f + 1, c :: rest =>
    if c == dquote then some ([], rest)
    else if c == bslash then
      match rest with
      | [] => none
      | e :: rest2 => (lexStr f rest2).map (fun p => (e :: p.1, p.2))
    else (lexStr f rest).map (fun p => (c :: p.1, p.2))

/-- Take a maximal run of decimal digits. -/
def takeDigits : List Char → List Char × List Char
  | [] => ([], [])
  | c :: cs =>
    if c.isDigit then
      let p := takeDigits cs
      (c :: p.1, p.2)
    else ([], c :: cs)

/-- Digits to a natural number. -/
def digitsToNat (ds : List Char) : Nat :=
  ds.foldl (fun acc c => acc * 10 + (c.toNat - 48)) 0

/-- Consume an optional fraction and exponent after the integer part. -/
def lexNumTail (cs : List Char) : Option (List Char) :=
  let afterFrac :=
    match cs with
    | c :: rest =>
      if c == '.' then
        let p := takeDigits rest
        if p.1.isEmpty then none else some p.2
      else some cs
    | [] => some cs
  match afterFrac with
  | none => none
  | some cs2 =>
    match cs2 with
    | c :: rest =>
      if c == 'e' || c == 'E' then
        let rest2 :=
          match rest with
          | s :: r2 => if s == '+' || s == '-' then r2 else rest
          | [] => rest
        let p := takeDigits rest2
        if p.1.isEmpty then none else some p.2
      else some cs2
    | [] => some cs2

mutual

/-- Parse one JSON value; returns the value and the remaining input. -/
def parseVal : Nat → List Char → Option (Json × List Char)
  | 0, _ => none
  | f + 1, cs0 =>
    let cs := dropWs cs0
    match cs with
    | [] => none
    | c :: rest =>
      if c == lbrace then
        let rest2 := dropWs rest
        match rest2 with
        | c2 :: rest3 =>
          if c2 == rbrace then some (Json.obj [], rest3)
          else
            match parseMembers f rest2 with
            | some (fs, r) => some (Json.obj fs, r)
            | none => none
        | [] => none
      else if c == '[' then
        let rest2 := dropWs rest
        match rest2 with
        | c2 :: rest3 =>
          if c2 == ']' then some (Json.arr [], rest3)
          else
            match parseElems f rest2 with
            | some (es, r) => some (Json.arr es, r)
            | none => none
        | [] => none
      else if c == dquote then
        match lexStr (rest.length + 1) rest with
        | some (body, r) => some (Json.str (String.mk body), r)
        | none => none
      else if cs.take 4 == "null".data then some (Json.null, cs.drop 4)
      else if cs.take 4 == "true".data then some (Json.bool true, cs.drop 4)
      else if cs.take 5 == "false".data then some (Json.bool false, cs.drop 5)
      else if c == '-' then
        let p := takeDigits rest
        if p.1.isEmpty then none
        else
          match lexNumTail p.2 with
          | some r => some (Json.num (-(digitsToNat p.1 : Int)), r)
          | none => none
      else if c.isDigit then
        let p := takeDigits cs
        match lexNumTail p.2 with
        | some r => some (Json.num (digitsToNat p.1 : Int), r)
        | none => none
      else none

/-- Parse one or more key-value members of a JSON object, including the
closing brace. -/
def parseMembers : Nat → List Char → Option (List (String × Json) × List Char)
  | 0, _ => none
  | f + 1, cs0 =>
    let cs := dropWs cs0
    match cs with
    | c :: rest =>
      if c == dquote then
        match lexStr (rest.length + 1) rest with
        | some (key, r1) =>
          match dropWs r1 with
          | c2 :: r2 =>
            if c2 == ':' then
              match parseVal f r2 with
              | some (v, r3) =>
                match dropWs r3 with
                | c3 :: r4 =>
                  if c3 == ',' then
                    match parseMembers f r4 with
                    | some (fs, r5) => some ((String.mk key, v) :: fs, r5)
                    | none => none
                  else if c3 == rbrace then some ([(String.mk key, v)], r4)
                  else none
                | [] => none
              | none => none
            else none
          | [] => none
        | none => none
      else none
    | [] => none

/-- Parse one or more elements of a JSON array, including the closing
bracket. -/
def parseElems : Nat → List Char → Option (List Json × List Char)
  | 0, _ => none
  | f + 1, cs =>
    match parseVal f cs with
    | some (v, r1) =>
      match dropWs r1 with
      | c :: r2 =>
        if c == ',' then
          match parseElems f r2 with
          | some (es, r3) => some (v :: es, r3)
          | none => none
        else if c == ']' then some ([v], r2)
        else none
      | [] => none
    | none => none

end

/-- Parse a whole string as one JSON document; `none` when the text is
not valid JSON, in which case the jsonb cast in the store raises an
error. -/
def parseJson (s : String) : Option Json :=
  match parseVal (2 * s.length + 4) s.data with
  | some (j, rest) => if (dropWs rest).isEmpty then some j else none
  | none => none

/-! ## Data model

One stored audit event of `tbl_audit_trail_logs`
(migrations/001_initial-schema.js). Timestamps are abstracted to natural
numbers; `id` is the bigserial primary key. -/

/-- One row of `tbl_audit_trail_logs`. -/
structure Row where
  id : Nat
  process_id : String
  comp_code : String
  emp_id : Option String
  source_app : String
  source_function : Option String
  reference_id : Option String
  action : String
  description : Option String
  metadata : Option Json
  created_by : String
  created_at : Nat
  app_version : Option String
  batch_id : Option String
deriving Repr

/-- Storage-layer failures (`StorageError` taxonomy of the spec): a
constraint or row-level-security violation during an insert, or a
statement failure during a query (for example an invalid jsonb cast). -/
inductive StorageError where
  | constraintViolation : StorageError
  | queryFailed : StorageError
deriving Repr, DecidableEq

/-- Result of `storeBatchLogs`. -/
structure BatchResult where
  batch_id : String
  total_received : Nat
deriving Repr

/-- Result shape shared by the three retrieval operations. -/
structure QueryResult where
  rows : List Row
  total_count : Nat
deriving Repr

/-- The `tenant_isolation` row-level-security policy of the migration:
every statement of a session bound to `tenant` sees only rows whose
`comp_code` equals the session tenant marker. -/
def visibleRows (tenant : String) (store : List Row) : List Row :=
  store.filter (fun r => r.comp_code == tenant)

/-! ## Batch ingestor (`storeBatchLogs` in src/services/auditService.js)

The pg client, clock and uuid generator are passed explicitly: `now` is
the submission time, `genPid` yields the uuid for the k-th entry that
omitted `process_id`, and `batchId` is the generated batch identifier. -/

/-- One validated log entry of the batch payload (after the zod
`logSchema` of the routes; `metadata` is the already transformed
document, defaulting to the empty object). -/
structure LogEntry where
  emp_id : Option String
  process_id : Option String
  source_app : String
  source_function : Option String
  reference_id : Option String
  action : String
  description : Option String
  created_at : Option Nat
  metadata : Json
deriving Repr

/-- The validated batch payload (after the zod `batchSchema`). -/
structure BatchPayload where
  comp_code : String
  app_version : Option String
  created_by : String
  logs : List LogEntry
deriving Repr

/-- Length of an optional varchar value; NULL passes every bound. -/
def optLen : Option String → Nat
  | none => 0
  | some s => s.length

/-- The schema-store checks an insert must pass: the varchar length
bounds of the migration and the `WITH CHECK` clause of the
`tenant_isolation` policy (`comp_code` must equal the session tenant). -/
def rowOk (tenant : String) (r : Row) : Bool :=
  (r.comp_code == tenant)
  && decide (r.process_id.length ≤ 100)
  && decide (r.comp_code.length ≤ 50)
  && decide (optLen r.emp_id ≤ 50)
  && decide (r.source_app.length ≤ 100)
  && decide (optLen r.source_function ≤ 150)
  && decide (optLen r.reference_id ≤ 150)
  && decide (r.action.length ≤ 100)
  && decide (r.created_by.length ≤ 50)
  && decide (optLen r.app_version ≤ 20)
  && decide (optLen r.batch_id ≤ 100)

/-- Some stored row already carries this `process_id` (the unique
constraint the `ON CONFLICT (process_id) DO NOTHING` clause arbitrates
on; it is store-wide, not scoped per tenant). -/
def pidTaken (store : List Row) (pid : String) : Bool :=
  store.any (fun r => r.process_id == pid)

/-- JavaScript `value || null`, as the insert statement applies it to
its optional parameters: an absent or empty (falsy) string is bound as
NULL. -/
def orNull : Option String → Option String
  | none => none
  | some v => if v == "" then none else some v

/-- The row the insert statement of `storeBatchLogs` builds for one
entry: caller identifiers, optional fields defaulted through `|| null`,
the shared `batch_id`, and the submission-time default for
`created_at`. -/
def buildRow (batchId : String) (now : Nat) (p : BatchPayload) (pid : String)
    (log : LogEntry) (newId : Nat) : Row where
  id := newId
  process_id := pid
  comp_code := p.comp_code
  emp_id := orNull log.emp_id
  source_app := log.source_app
  source_function := orNull log.source_function
  reference_id := orNull log.reference_id
  action := log.action
  description := orNull log.description
  metadata := some log.metadata
  created_by := p.created_by
  created_at := log.created_at.getD now
  app_version := orNull p.app_version
  batch_id := some batchId

/-- The `process_id` the insert statement binds for the k-th entry:
the source computes `log.process_id || uuidv4()`, a JavaScript falsy
test — an absent **or empty-string** value is replaced by a freshly
generated uuid on every call. -/
def effectivePid (genPid : Nat → String) (k : Nat) (log : LogEntry) : String :=
  match log.process_id with
  | some s => if s == "" then genPid k else s
  | none => genPid k

/-- The insert loop inside the transaction of `storeBatchLogs`: each
entry, in submission order, is inserted with
`ON CONFLICT (process_id) DO NOTHING`; a conflict is a no-op, any other
store rejection aborts the transaction. -/
def insertAll (batchId : String) (genPid : Nat → String) (now : Nat)
    (tenant : String) (p : BatchPayload) :
    Nat → List Row → List LogEntry → Except StorageError (List Row)
  | _, store, [] => Except.ok store
  | k, store, log :: rest =>
    if pidTaken store (effectivePid genPid k log) then
      insertAll batchId genPid now tenant p (k + 1) store rest
    else if rowOk tenant (buildRow batchId now p (effectivePid genPid k log) log store.length) then
      insertAll batchId genPid now tenant p (k + 1)
        (store ++ [buildRow batchId now p (effectivePid genPid k log) log store.length]) rest
    else Except.error StorageError.constraintViolation

/-- `storeBatchLogs`: one transaction around the insert loop; on success
the candidate state is committed and `total_received` is the number of
submitted entries; on any non-conflict failure the whole transaction is
rolled back and the store keeps its prior state. -/
def storeBatchLogs (batchId : String) (genPid : Nat → String) (now : Nat)
    (tenant : String) (store : List Row) (p : BatchPayload) :
    List Row × Except StorageError BatchResult :=
  match insertAll batchId genPid now tenant p 0 store p.logs with
  | Except.ok store2 => (store2, Except.ok { batch_id := batchId, total_received := p.logs.length })
  | Except.error e => (store, Except.error e)

/-! ## Query engine (`getUserLogs`, `getAppLogs`, `searchLogs`)

Each operation builds a count statement and a page statement by
appending the same conditions in the same order; both builders are kept
as separate definitions here, mirroring the duplicated source code.
Optional string filters follow JavaScript truthiness: an absent or empty
string adds no condition. Comparisons against a nullable column are SQL
three-valued: a NULL field never matches an equality or containment. -/

/-- Filters of `getUserLogs` (`comp_code, emp_id, limit, offset, from, to`). -/
structure UserFilters where
  comp_code : String
  emp_id : String
  limit : Nat
  offset : Nat
  from_ : Option Nat
  to_ : Option Nat
deriving Repr

/-- Filters of `getAppLogs`. -/
structure AppFilters where
  comp_code : String
  source_app : String
  source_function : Option String
  limit : Nat
  offset : Nat
  from_ : Option Nat
  to_ : Option Nat
deriving Repr

/-- Filters of `searchLogs`; `metadata` is the raw query text bound to
the jsonb containment condition. -/
structure SearchFilters where
  comp_code : String
  limit : Nat
  offset : Nat
  from_ : Option Nat
  to_ : Option Nat
  source_app : Option String
  source_function : Option String
  reference_id : Option String
  created_by : Option String
  action : Option String
  metadata : Option String
deriving Repr

/-- JavaScript truthiness of an optional string parameter: only a
present, non-empty value adds its condition. -/
def truthy : Option String → Bool
  | none => false
  | some s => !(s == "")

/-- Equality condition on a NOT NULL varchar column, applied only when
the parameter is truthy. -/
def optEqCond (param : Option String) (field : String) : Bool :=
  match param with
  | none => true
  | some s => if s == "" then true else field == s

/-- Equality condition on a nullable varchar column, applied only when
the parameter is truthy; a NULL field never matches. -/
def optEqCondNullable (param : Option String) (field : Option String) : Bool :=
  match param with
  | none => true
  | some s =>
    if s == "" then true
    else
      match field with
      | some v => v == s
      | none => false

/-- `created_at >= from` when `from` is supplied. -/
def fromCond (from_ : Option Nat) (created_at : Nat) : Bool :=
  match from_ with
  | none => true
  | some t => decide (t ≤ created_at)

/-- `created_at <= to` when `to` is supplied. -/
def toCond (to_ : Option Nat) (created_at : Nat) : Bool :=
  match to_ with
  | none => true
  | some t => decide (created_at ≤ t)

/-- The WHERE conditions of the count statement of `getUserLogs`. -/
def userCountPred (f : UserFilters) (r : Row) : Bool :=
  (r.comp_code == f.comp_code)
  && ((match r.emp_id with
       | some e => e == f.emp_id
       | none => false)
      && (fromCond f.from_ r.created_at && toCond f.to_ r.created_at))

/-- The WHERE conditions of the page statement of `getUserLogs`. -/
def userPagePred (f : UserFilters) (r : Row) : Bool :=
  (r.comp_code == f.comp_code)
  && ((match r.emp_id with
       | some e => e == f.emp_id
       | none => false)
      && (fromCond f.from_ r.created_at && toCond f.to_ r.created_at))

/-- The WHERE conditions of the count statement of `getAppLogs`. -/
def appCountPred (f : AppFilters) (r : Row) : Bool :=
  (r.comp_code == f.comp_code)
  && ((r.source_app == f.source_app)
      && (optEqCondNullable f.source_function r.source_function
          && (fromCond f.from_ r.created_at && toCond f.to_ r.created_at)))

/-- The WHERE conditions of the page statement of `getAppLogs`. -/
def appPagePred (f : AppFilters) (r : Row) : Bool :=
  (r.comp_code == f.comp_code)
  && ((r.source_app == f.source_app)
      && (optEqCondNullable f.source_function r.source_function
          && (fromCond f.from_ r.created_at && toCond f.to_ r.created_at)))

/-- The jsonb containment condition `metadata @> $n::jsonb` against the
parsed filter document; a NULL metadata column never matches. -/
def metaCond (mj : Option Json) (field : Option Json) : Bool :=
  match mj with
  | none => true
  | some j =>
    match field with
    | some doc => jsonContains doc j
    | none => false

/-- The WHERE conditions of the count statement of `searchLogs`, given
the parsed metadata document. -/
def searchCountPred (f : SearchFilters) (mj : Option Json) (r : Row) : Bool :=
  (r.comp_code == f.comp_code)
  && ((optEqCond f.source_app r.source_app)
      && ((optEqCondNullable f.source_function r.source_function)
          && ((optEqCondNullable f.reference_id r.reference_id)
              && ((optEqCond f.created_by r.created_by)
                  && ((optEqCond f.action r.action)
                      && ((fromCond f.from_ r.created_at)
                          && ((toCond f.to_ r.created_at)
                              && metaCond mj r.metadata)))))))

/-- The WHERE conditions of the page statement of `searchLogs`, given
the parsed metadata document. -/
def searchPagePred (f : SearchFilters) (mj : Option Json) (r : Row) : Bool :=
  (r.comp_code == f.comp_code)
  && ((optEqCond f.source_app r.source_app)
      && ((optEqCondNullable f.source_function r.source_function)
          && ((optEqCondNullable f.reference_id r.reference_id)
              && ((optEqCond f.created_by r.created_by)
                  && ((optEqCond f.action r.action)
                      && ((fromCond f.from_ r.created_at)
                          && ((toCond f.to_ r.created_at)
                              && metaCond mj r.metadata)))))))

/-- `ORDER BY created_at DESC`: a row comes before another when its
creation time is at least as large. -/
def byCreatedDesc (a b : Row) : Prop := b.created_at ≤ a.created_at

instance : DecidableRel byCreatedDesc := fun a b => Nat.decLe b.created_at a.created_at

instance : IsTotal Row byCreatedDesc := ⟨fun a b => Nat.le_total b.created_at a.created_at⟩

instance : IsTrans Row byCreatedDesc := ⟨fun _ _ _ hab hbc => Nat.le_trans hbc hab⟩

/-- `ORDER BY created_at DESC LIMIT l OFFSET o` applied to the rows the
page conditions select from the tenant-visible store. -/
def pageRows (p : Row → Bool) (visible : List Row) (lim off : Nat) : List Row :=
  (((visible.filter p).insertionSort byCreatedDesc).drop off).take lim

/-- `getUserLogs`: a count statement and a page statement, executed
separately over the session-visible rows. -/
def getUserLogs (tenant : String) (store : List Row) (f : UserFilters) : QueryResult :=
  { rows := pageRows (userPagePred f) (visibleRows tenant store) f.limit f.offset
    total_count := ((visibleRows tenant store).filter (userCountPred f)).length }

/-- `getAppLogs`: a count statement and a page statement, executed
separately over the session-visible rows. -/
def getAppLogs (tenant : String) (store : List Row) (f : AppFilters) : QueryResult :=
  { rows := pageRows (appPagePred f) (visibleRows tenant store) f.limit f.offset
    total_count := ((visibleRows tenant store).filter (appCountPred f)).length }

/-- The jsonb cast of the metadata parameter, performed by the store
while executing the statement: a truthy parameter that is not valid JSON
raises a statement error. -/
def searchMeta (f : SearchFilters) : Except StorageError (Option Json) :=
  match f.metadata with
  | none => Except.ok none
  | some s =>
    if s == "" then Except.ok none
    else
      match parseJson s with
      | some j => Except.ok (some j)
      | none => Except.error StorageError.queryFailed

/-- `searchLogs`: casts the metadata parameter, then runs the count and
page statements over the session-visible rows. -/
def searchLogs (tenant : String) (store : List Row) (f : SearchFilters) :
    Except StorageError QueryResult :=
  match searchMeta f with
  | Except.error e => Except.error e
  | Except.ok mj =>
    Except.ok
      { rows := pageRows (searchPagePred f mj) (visibleRows tenant store) f.limit f.offset
        total_count := ((visibleRows tenant store).filter (searchCountPred f mj)).length }

/-! ## Request validation (zod schemas of src/routes/auditRoutes.js)

The numeric query parameters are modelled after coercion (`z.coerce`
yields a JavaScript number, here an integer); ISO datetime strings are
abstracted to their timestamps. The log-entry `metadata` field is
modelled after the zod transform, which maps every non-object input to
the empty document. -/

/-- A raw (not yet validated) log entry of the batch body. -/
structure RawLog where
  emp_id : Option String
  process_id : Option String
  source_app : Option String
  source_function : Option String
  reference_id : Option String
  action : Option String
  description : Option String
  created_at : Option Nat
  metadata : Option Json
deriving Repr

/-- A raw batch body. -/
structure RawBatch where
  comp_code : Option String
  app_version : Option String
  created_by : Option String
  logs : List RawLog
deriving Repr

/-- Bound check for an optional string field. -/
def optMaxLen (o : Option String) (n : Nat) : Bool :=
  match o with
  | none => true
  | some s => decide (s.length ≤ n)

/-- The per-entry checks of `logSchema`. -/
def logOk (l : RawLog) : Bool :=
  optMaxLen l.emp_id 50
  && optMaxLen l.process_id 100
  && (match l.source_app with
      | some s => decide (s.length ≤ 100)
      | none => false)
  && optMaxLen l.source_function 150
  && optMaxLen l.reference_id 150
  && (match l.action with
      | some s => decide (s.length ≤ 100)
      | none => false)

/-- The checks of `batchSchema`: required non-empty `comp_code` of at
most 50 characters, optional `app_version` and `created_by` bounds, 1 to
1000 entries, each entry well formed. -/
def batchOk (raw : RawBatch) : Bool :=
  (match raw.comp_code with
   | some s => decide (1 ≤ s.length) && decide (s.length ≤ 50)
   | none => false)
  && optMaxLen raw.app_version 20
  && optMaxLen raw.created_by 50
  && decide (1 ≤ raw.logs.length)
  && decide (raw.logs.length ≤ 1000)
  && raw.logs.all logOk

/-- The validated entry `logSchema` produces: `metadata` defaults to the
empty document. -/
def buildLogEntry (l : RawLog) : LogEntry where
  emp_id := l.emp_id
  process_id := l.process_id
  source_app := (l.source_app).getD ""
  source_function := l.source_function
  reference_id := l.reference_id
  action := (l.action).getD ""
  description := l.description
  created_at := l.created_at
  metadata := (l.metadata).getD (Json.obj [])

/-- Validation failure reported with HTTP 400. -/
inductive ValidationError where
  | invalid : ValidationError
deriving Repr, DecidableEq

/-- `batchSchema.parse`: all checks pass or the request is rejected;
`created_by` defaults to SYSTEM. -/
def validateBatch (raw : RawBatch) : Except ValidationError BatchPayload :=
  if batchOk raw then
    Except.ok
      { comp_code := (raw.comp_code).getD ""
        app_version := raw.app_version
        created_by := (raw.created_by).getD "SYSTEM"
        logs := raw.logs.map buildLogEntry }
  else Except.error ValidationError.invalid

/-- `z.coerce.number().int().min(1).max(200).default(50)` for `limit`. -/
def checkLimit : Option Int → Option Nat
  | none => some 50
  | some v => if 1 ≤ v && v ≤ 200 then some v.toNat else none

/-- `z.coerce.number().int().min(0).default(0)` for `offset`. -/
def checkOffset : Option Int → Option Nat
  | none => some 0
  | some v => if 0 ≤ v then some v.toNat else none

/-- The raw query string of the user and app retrieval endpoints. The
`source_function` field records that key of the query string: it is not
among the keys `querySchema` declares, so its mere presence trips the
strict unrecognized-key check. -/
structure RawQuery where
  comp_code : Option String
  limit : Option Int
  offset : Option Int
  from_ : Option Nat
  to_ : Option Nat
  source_function : Option String
deriving Repr

/-- The output of `querySchema.parse`. -/
structure ValidQuery where
  comp_code : String
  limit : Nat
  offset : Nat
  from_ : Option Nat
  to_ : Option Nat
deriving Repr

/-- `querySchema.parse` (strict): rejects any unrecognized key, requires
a non-empty `comp_code` of at most 50 characters, and applies the
numeric bounds and defaults. -/
def validateQuery (raw : RawQuery) : Except ValidationError ValidQuery :=
  if raw.source_function.isSome then Except.error ValidationError.invalid
  else
    match raw.comp_code with
    | none => Except.error ValidationError.invalid
    | some cc =>
      if decide (1 ≤ cc.length) && decide (cc.length ≤ 50) then
        match checkLimit raw.limit, checkOffset raw.offset with
        | some lim, some off =>
          Except.ok { comp_code := cc, limit := lim, offset := off, from_ := raw.from_, to_ := raw.to_ }
        | _, _ => Except.error ValidationError.invalid
      else Except.error ValidationError.invalid

/-- The raw query string of the search endpoint; every key it may carry
is declared by `searchSchema`, and `metadata` is validated only as an
arbitrary string. -/
structure RawSearchQuery where
  comp_code : Option String
  limit : Option Int
  offset : Option Int
  from_ : Option Nat
  to_ : Option Nat
  source_app : Option String
  source_function : Option String
  reference_id : Option String
  created_by : Option String
  action : Option String
  metadata : Option String
deriving Repr

/-- `searchSchema.parse`: the common query checks plus the optional
filter-string bounds; the `metadata` string is accepted unconditionally. -/
def validateSearch (raw : RawSearchQuery) : Except ValidationError SearchFilters :=
  match raw.comp_code with
  | none => Except.error ValidationError.invalid
  | some cc =>
    if (decide (1 ≤ cc.length) && decide (cc.length ≤ 50))
        && (optMaxLen raw.source_app 100
            && (optMaxLen raw.source_function 150
                && (optMaxLen raw.reference_id 150
                    && (optMaxLen raw.created_by 50 && optMaxLen raw.action 100)))) then
      match checkLimit raw.limit, checkOffset raw.offset with
      | some lim, some off =>
        Except.ok
          { comp_code := cc, limit := lim, offset := off, from_ := raw.from_, to_ := raw.to_
            source_app := raw.source_app, source_function := raw.source_function
            reference_id := raw.reference_id, created_by := raw.created_by
            action := raw.action, metadata := raw.metadata }
      | _, _ => Except.error ValidationError.invalid
    else Except.error ValidationError.invalid

/-! ## Route handlers -/

/-- The HTTP outcomes of the audit routes. -/
inductive Response where
  | created (total_received : Nat) (batch_id : String) : Response
  | okPage (data : List Row) (total_count : Nat) (limit offset : Nat) : Response
  | badRequest : Response
  | serverError : Response
deriving Repr

/-- POST /audit/logs/batch: parse the body first; on a validation error
respond 400 without touching the store; otherwise run `storeBatchLogs`
on the tenant-bound session and respond 201 or 500. -/
def handleBatch (batchId : String) (genPid : Nat → String) (now : Nat)
    (tenant : String) (store : List Row) (raw : RawBatch) : List Row × Response :=
  match validateBatch raw with
  | Except.error _ => (store, Response.badRequest)
  | Except.ok p =>
    match storeBatchLogs batchId genPid now tenant store p with
    | (store2, Except.ok r) => (store2, Response.created r.total_received r.batch_id)
    | (store2, Except.error _) => (store2, Response.serverError)

/-- GET /audit/logs/user/:emp_id: parse the query string, build the
filters from the validated query plus the path parameter, run
`getUserLogs`. -/
def handleUserLogs (tenant : String) (store : List Row) (emp_id : String)
    (raw : RawQuery) : Response :=
  match validateQuery raw with
  | Except.error _ => Response.badRequest
  | Except.ok q =>
    let f : UserFilters :=
      { comp_code := q.comp_code, emp_id := emp_id, limit := q.limit, offset := q.offset
        from_ := q.from_, to_ := q.to_ }
    let res := getUserLogs tenant store f
    Response.okPage res.rows res.total_count f.limit f.offset

/-- GET /audit/logs/app/:source_app: parse the query string with the
strict `querySchema`, then build the filters from the validated query,
the path parameter, and the raw `source_function` query value — exactly
as the source handler spreads them. -/
def handleAppLogs (tenant : String) (store : List Row) (source_app : String)
    (raw : RawQuery) : Response :=
  match validateQuery raw with
  | Except.error _ => Response.badRequest
  | Except.ok q =>
    let f : AppFilters :=
      { comp_code := q.comp_code, source_app := source_app
        source_function := raw.source_function
        limit := q.limit, offset := q.offset, from_ := q.from_, to_ := q.to_ }
    let res := getAppLogs tenant store f
    Response.okPage res.rows res.total_count f.limit f.offset

/-- GET /audit/logs/search: parse the query string with `searchSchema`,
run `searchLogs`; a statement failure is reported as 500 Query failed. -/
def handleSearch (tenant : String) (store : List Row) (raw : RawSearchQuery) : Response :=
  match validateSearch raw with
  | Except.error _ => Response.badRequest
  | Except.ok f =>
    match searchLogs tenant store f with
    | Except.ok res => Response.okPage res.rows res.total_count f.limit f.offset
    | Except.error _ => Response.serverError

/-! ## Tenant session manager (src/middleware/tenantContext.js)

The middleware control flow as a trace of session events. The binding
statements (the SET and its verification SELECT) either both succeed or
the first failure is caught; the downstream route always ends by sending
a response (success, validation failure, or a caught or default 500),
and the finish event of that response triggers the registered release. -/

/-- Observable events on the pooled session. -/
inductive SessionEvent where
  | acquired : SessionEvent
  | released : SessionEvent
  | handlerInvoked : SessionEvent
  | responded (status : Nat) : SessionEvent
deriving Repr, DecidableEq

/-- Whether the tenant-binding statements succeed on the fresh session. -/
inductive BindOutcome where
  | success : BindOutcome
  | failure : BindOutcome
deriving Repr, DecidableEq

/-- The event trace of one request through the tenant-context
middleware: no tenant resolved means no session is ever requested; a
binding failure releases inside the catch block and responds 500
without registering the finish listener; a successful bind hands the
session to the route, whose response finish event fires the single
registered release. `handlerStatus` is the status the downstream route
ends with (201 or 200 on success, 400 on validation failure, 500 on a
storage error or an unexpected throw caught by the framework). -/
def tenantContextTrace (compCode : Option String) (bind : BindOutcome)
    (handlerStatus : Nat) : List SessionEvent :=
  match compCode with
  | none => [SessionEvent.responded 500]
  | some _ =>
    match bind with
    | BindOutcome.failure =>
      [SessionEvent.acquired, SessionEvent.released, SessionEvent.responded 500]
    | BindOutcome.success =>
      [SessionEvent.acquired, SessionEvent.handlerInvoked,
       SessionEvent.responded handlerStatus, SessionEvent.released]

/-! ## Tenant binding statement (the SET in tenantContext.js)

The untrusted tenant identifier is escaped by doubling single quotes and
spliced into the statement text with a template literal. -/

/-- The single quote character. -/
def sq : Char := Char.ofNat 39

/-- `replace(/apostrophe/g, two apostrophes)` on the character list. -/
def escTenant : List Char → List Char
  | [] => []
  | c :: cs => if c = sq then sq :: sq :: escTenant cs else c :: escTenant cs

/-- The fixed statement text before the quoted tenant value. -/
def setStmtHead : List Char := "SET app.current_tenant = ".data

/-- The executable statement text the middleware builds: the head, then
the escaped tenant identifier wrapped in single quotes. -/
def setTenantStatement (tenant : String) : String :=
  String.mk (setStmtHead ++ sq :: (escTenant tenant.data ++ [sq]))

mutual

/-- Lex a SQL single-quoted literal body after its opening quote, where
a doubled quote stands for one quote character; returns the decoded
value and the text after the closing quote. -/
def consumeLit : List Char → Option (List Char × List Char)
  | [] => none
  | c :: cs =>
    if c = sq then consumeLitQuote cs
    else (consumeLit cs).map (fun p => (c :: p.1, p.2))

/-- Continue lexing right after a quote character inside the literal: a
second quote decodes to one quote and the literal continues, anything
else (or the end of input) closes the literal. -/
def consumeLitQuote : List Char → Option (List Char × List Char)
  | [] => some ([], [])
  | c :: cs =>
    if c = sq then (consumeLit cs).map (fun p => (sq :: p.1, p.2))
    else some ([], c :: cs)

end

/-- Parse the built statement back as the store lexes it: the fixed
head, then exactly one single-quoted literal reaching the end of the
statement; returns the tenant value the statement assigns. -/
def parseSetStatement (s : String) : Option String :=
  if (s.data).take setStmtHead.length = setStmtHead then
    match (s.data).drop setStmtHead.length with
    | c :: rest =>
      if c = sq then
        match consumeLit rest with
        | some (v, []) => some (String.mk v)
        | _ => none
      else none
    | [] => none
  else none

/-! ## Helper lemmas -/

/-- A row of a returned page was selected by the page conditions from
the tenant-visible rows. -/
theorem mem_pageRows {p : Row → Bool} {l : List Row} {lim off : Nat} {r : Row}
    (h : r ∈ pageRows p l lim off) : r ∈ l ∧ p r = true := by
  unfold pageRows at h
  have h1 : r ∈ ((l.filter p).insertionSort byCreatedDesc).drop off := List.mem_of_mem_take h
  have h2 : r ∈ (l.filter p).insertionSort byCreatedDesc := List.mem_of_mem_drop h1
  have h3 : r ∈ l.filter p := (List.perm_insertionSort byCreatedDesc _).mem_iff.mp h2
  exact ⟨(List.mem_filter.mp h3).1, (List.mem_filter.mp h3).2⟩

/-- A returned page never exceeds the limit. -/
theorem length_pageRows (p : Row → Bool) (l : List Row) (lim off : Nat) :
    (pageRows p l lim off).length ≤ lim := by
  unfold pageRows
  exact List.length_take_le _ _

/-- A returned page is ordered by creation time descending. -/
theorem sorted_pageRows (p : Row → Bool) (l : List Row) (lim off : Nat) :
    List.Sorted byCreatedDesc (pageRows p l lim off) := by
  have hs : List.Sorted byCreatedDesc ((l.filter p).insertionSort byCreatedDesc) :=
    List.sorted_insertionSort byCreatedDesc _
  have hsub : List.Sublist ((((l.filter p).insertionSort byCreatedDesc).drop off).take lim)
      ((l.filter p).insertionSort byCreatedDesc) :=
    (List.take_sublist _ _).trans (List.drop_sublist _ _)
  exact List.Pairwise.sublist hsub hs

/-- Membership in the tenant-visible rows forces the tenant field. -/
theorem mem_visibleRows {tenant : String} {store : List Row} {r : Row}
    (h : r ∈ visibleRows tenant store) : (r.comp_code == tenant) = true :=
  (List.mem_filter.mp h).2

/-! ## C1 -/

/-- C1: for every retrieval operation run on a session bound to tenant
A (by-employee, by-application, generic search), every row of the
returned page has its `comp_code` equal to A — enforced both by the
row-level-security visibility of the session and by the explicit tenant
condition of each statement, so it holds even when the filter carries no
other condition. -/
theorem tenant_isolation_queries (tenant : String) (store : List Row)
    (fU : UserFilters) (fA : AppFilters) (fS : SearchFilters) (res : QueryResult) :
    ((getUserLogs tenant store fU).rows.all
        (fun r => r.comp_code == tenant && r.comp_code == fU.comp_code) = true)
    ∧ ((getAppLogs tenant store fA).rows.all
        (fun r => r.comp_code == tenant && r.comp_code == fA.comp_code) = true)
    ∧ (searchLogs tenant store fS = Except.ok res →
        res.rows.all (fun r => r.comp_code == tenant && r.comp_code == fS.comp_code) = true) := by
  refine ⟨?_, ?_, ?_⟩
  · apply List.all_eq_true.mpr
    intro r hr
    obtain ⟨hv, hp⟩ := mem_pageRows hr
    simp only [userPagePred, Bool.and_eq_true] at hp
    simp only [Bool.and_eq_true]
    exact ⟨mem_visibleRows hv, hp.1⟩
  · apply List.all_eq_true.mpr
    intro r hr
    obtain ⟨hv, hp⟩ := mem_pageRows hr
    simp only [appPagePred, Bool.and_eq_true] at hp
    simp only [Bool.and_eq_true]
    exact ⟨mem_visibleRows hv, hp.1⟩
  · intro h
    unfold searchLogs at h
    cases hm : searchMeta fS with
    | error e => rw [hm] at h; simp at h
    | ok mj =>
      rw [hm] at h
      injection h with h2
      subst h2
      apply List.all_eq_true.mpr
      intro r hr
      obtain ⟨hv, hp⟩ := mem_pageRows hr
      simp only [searchPagePred, Bool.and_eq_true] at hp
      simp only [Bool.and_eq_true]
      exact ⟨mem_visibleRows hv, hp.1⟩

/-- A stored row used by the concrete witnesses. -/
def wRow : Row where
  id := 0
  process_id := "P1"
  comp_code := "COMP001"
  emp_id := some "EMP123"
  source_app := "MOBILE_APP"
  source_function := none
  reference_id := none
  action := "CHECK_IN_SUCCESS"
  description := none
  metadata := some (Json.obj [])
  created_by := "SYSTEM"
  created_at := 10
  app_version := none
  batch_id := none

/-- A two-tenant store used by the concrete witnesses. -/
def wStore : List Row :=
  [wRow, { wRow with id := 1, process_id := "P2", comp_code := "COMP002" }]

/-- Concrete by-employee filters. -/
def wUserF : UserFilters where
  comp_code := "COMP001"
  emp_id := "EMP123"
  limit := 50
  offset := 0
  from_ := none
  to_ := none

/-- Concrete by-application filters. -/
def wAppF : AppFilters where
  comp_code := "COMP001"
  source_app := "MOBILE_APP"
  source_function := none
  limit := 50
  offset := 0
  from_ := none
  to_ := none

/-- Concrete search filters carrying only the tenant. -/
def wSearchF : SearchFilters where
  comp_code := "COMP001"
  limit := 50
  offset := 0
  from_ := none
  to_ := none
  source_app := none
  source_function := none
  reference_id := none
  created_by := none
  action := none
  metadata := none

/-- The page the concrete search returns. -/
def wSearchRes : QueryResult where
  rows := [wRow]
  total_count := 1

/-- Witness for C1 at a concrete two-tenant store: the tenant-only
search of tenant COMP001 returns rows of COMP001 alone. -/
theorem tenant_isolation_queries_witness :
    wSearchRes.rows.all
      (fun r => r.comp_code == "COMP001" && r.comp_code == wSearchF.comp_code) = true :=
  (tenant_isolation_queries "COMP001" wStore wUserF wAppF wSearchF wSearchRes).2.2 (by rfl)

/-! ## C3 -/

/-- C3: on every exit path of a request through the tenant-context
middleware — missing tenant, binding failure, or a bound session whose
route ends with any status (success, validation failure, storage error
or unexpected throw) — the number of release events equals the number of
acquire events, and never exceeds one: an acquired session is released
exactly once, neither leaked nor double-released. -/
theorem session_release_balanced (compCode : Option String) (bind : BindOutcome)
    (handlerStatus : Nat) :
    (tenantContextTrace compCode bind handlerStatus).count SessionEvent.released
      = (tenantContextTrace compCode bind handlerStatus).count SessionEvent.acquired
    ∧ (tenantContextTrace compCode bind handlerStatus).count SessionEvent.released ≤ 1 := by
  cases compCode <;> cases bind <;>
    simp [tenantContextTrace, List.count_cons, List.count_nil]

/-! ## C4 -/

/-- C4: when any entry of a batch fails for a reason other than the
duplicate-key no-op, the whole transaction is rolled back: the store
after the call is exactly the store before it, with no entry of the
batch committed. -/
theorem batch_error_rolls_back (batchId : String) (genPid : Nat → String) (now : Nat)
    (tenant : String) (store : List Row) (p : BatchPayload) (e : StorageError)
    (h : (storeBatchLogs batchId genPid now tenant store p).2 = Except.error e) :
    (storeBatchLogs batchId genPid now tenant store p).1 = store := by
  unfold storeBatchLogs at h ⊢
  cases hins : insertAll batchId genPid now tenant p 0 store p.logs with
  | ok s2 => rw [hins] at h; simp at h
  | error e2 => rfl

/-- A validated log entry used by the concrete witnesses. -/
def wLogA : LogEntry where
  emp_id := some "EMP123"
  process_id := some "P1"
  source_app := "MOBILE_APP"
  source_function := some "CHECK_IN"
  reference_id := none
  action := "CHECK_IN_SUCCESS"
  description := some "User checked in"
  created_at := some 100
  metadata := Json.obj [("device", Json.str "Android")]

/-- A second validated log entry used by the concrete witnesses. -/
def wLogB : LogEntry where
  emp_id := none
  process_id := some "P2"
  source_app := "MOBILE_APP"
  source_function := none
  reference_id := none
  action := "SUBMIT_LEAVE"
  description := none
  created_at := none
  metadata := Json.obj []

/-- A validated two-entry batch payload for tenant COMP001. -/
def wPayload : BatchPayload where
  comp_code := "COMP001"
  app_version := some "1.2.3"
  created_by := "MOBILE_USER"
  logs := [wLogA, wLogB]

/-- The same payload submitted for the wrong tenant: its inserts violate
the WITH CHECK clause of the isolation policy. -/
def wBadPayload : BatchPayload :=
  { wPayload with comp_code := "COMPX" }

/-- Witness for C4: a batch whose first insert is rejected by the store
(tenant mismatch under the isolation policy) leaves the empty store
empty. -/
theorem batch_error_rolls_back_witness :
    (storeBatchLogs "B1" (fun _ => "G") 50 "COMP001" [] wBadPayload).1 = [] :=
  batch_error_rolls_back "B1" (fun _ => "G") 50 "COMP001" [] wBadPayload
    StorageError.constraintViolation (by rfl)

/-! ## C7 -/

/-- C7: every successful batch-store call reports `total_received` equal
to the number of submitted entries, never the number of rows actually
written — duplicate no-ops are indistinguishable from fresh inserts in
the return value. -/
theorem total_received_counts_submitted (batchId : String) (genPid : Nat → String)
    (now : Nat) (tenant : String) (store store2 : List Row) (p : BatchPayload)
    (r : BatchResult)
    (h : storeBatchLogs batchId genPid now tenant store p = (store2, Except.ok r)) :
    r.total_received = p.logs.length := by
  unfold storeBatchLogs at h
  cases hins : insertAll batchId genPid now tenant p 0 store p.logs with
  | ok s2 =>
    rw [hins] at h
    have := congrArg Prod.snd h
    simp only at this
    injection this with h2
    rw [← h2]
  | error e2 => rw [hins] at h; simp at h

/-- The store state after the first successful submission of
`wPayload`. -/
def wStore1 : List Row :=
  (storeBatchLogs "B1" (fun _ => "G") 50 "COMP001" [] wPayload).1

/-- Witness for C7 at a first submission of two fresh entries. -/
theorem total_received_counts_submitted_witness :
    ({ batch_id := "B1", total_received := 2 } : BatchResult).total_received
      = wPayload.logs.length :=
  total_received_counts_submitted "B1" (fun _ => "G") 50 "COMP001" [] wStore1 wPayload
    { batch_id := "B1", total_received := 2 } (by rfl)

/-! ## C2: idempotent resubmission -/

/-- Some row of the store carries the given `process_id`, preserved
under any extension of the store. -/
theorem pidTaken_mono {s s2 : List Row} {pid : String}
    (hsub : ∀ r ∈ s, r ∈ s2) (h : pidTaken s pid = true) : pidTaken s2 pid = true := by
  obtain ⟨r, hr, hbeq⟩ := List.any_eq_true.mp h
  exact List.any_eq_true.mpr ⟨r, hsub r hr, hbeq⟩

/-- Rows present before the insert loop are still present after a
successful run: inserts only append. -/
theorem insertAll_subset (batchId : String) (genPid : Nat → String) (now : Nat)
    (tenant : String) (p : BatchPayload) :
    ∀ (logs : List LogEntry) (k : Nat) (store store2 : List Row),
      insertAll batchId genPid now tenant p k store logs = Except.ok store2 →
      ∀ r ∈ store, r ∈ store2 := by
  intro logs
  induction logs with
  | nil =>
    intro k store store2 h r hr
    unfold insertAll at h
    injection h with h2
    exact h2 ▸ hr
  | cons log rest ih =>
    intro k store store2 h r hr
    unfold insertAll at h
    split at h
    · exact ih (k + 1) store store2 h r hr
    · split at h
      · exact ih (k + 1) _ store2 h r (List.mem_append_left _ hr)
      · simp at h

/-- After a successful insert loop, the explicit non-empty (truthy)
`process_id` of every processed entry is taken in the resulting store:
it was either already present (the conflict no-op) or has just been
inserted. -/
theorem insertAll_pids_present (batchId : String) (genPid : Nat → String) (now : Nat)
    (tenant : String) (p : BatchPayload) :
    ∀ (logs : List LogEntry) (k : Nat) (store store2 : List Row),
      insertAll batchId genPid now tenant p k store logs = Except.ok store2 →
      ∀ log ∈ logs, ∀ pid, log.process_id = some pid → (pid == "") = false →
        pidTaken store2 pid = true := by
  intro logs
  induction logs with
  | nil => intro k store store2 h log hlog; exact absurd hlog (List.not_mem_nil log)
  | cons hd rest ih =>
    intro k store store2 h log hlog pid hpid hne
    unfold insertAll at h
    split at h
    · rename_i htaken
      rcases List.mem_cons.mp hlog with heq | hmem
      · subst heq
        have hpideq : effectivePid genPid k log = pid := by
          simp [effectivePid, hpid, hne]
        rw [hpideq] at htaken
        exact pidTaken_mono (insertAll_subset batchId genPid now tenant p rest (k + 1)
          store store2 h) htaken
      · exact ih (k + 1) store store2 h log hmem pid hpid hne
    · split at h
      · rename_i hnottaken hok
        rcases List.mem_cons.mp hlog with heq | hmem
        · subst heq
          have hpideq : effectivePid genPid k log = pid := by
            simp [effectivePid, hpid, hne]
          have hnew : pidTaken (store ++ [buildRow batchId now p
              (effectivePid genPid k log) log store.length]) pid = true := by
            apply List.any_eq_true.mpr
            refine ⟨buildRow batchId now p (effectivePid genPid k log) log store.length,
              List.mem_append_right _ (List.mem_singleton.mpr rfl), ?_⟩
            simp [buildRow, hpideq]
          exact pidTaken_mono (insertAll_subset batchId genPid now tenant p rest (k + 1)
            _ store2 h) hnew
        · exact ih (k + 1) _ store2 h log hmem pid hpid hne
      · simp at h

/-- When every entry carries an explicit non-empty (truthy)
`process_id` that is already taken in the store, the insert loop is a
pure no-op: every insert hits the conflict clause and the store is
returned unchanged. -/
theorem insertAll_noop (batchId : String) (genPid : Nat → String) (now : Nat)
    (tenant : String) (p : BatchPayload) :
    ∀ (logs : List LogEntry) (k : Nat) (store : List Row),
      (∀ log ∈ logs, ∃ pid, log.process_id = some pid ∧ (pid == "") = false
        ∧ pidTaken store pid = true) →
      insertAll batchId genPid now tenant p k store logs = Except.ok store := by
  intro logs
  induction logs with
  | nil => intro k store _; rfl
  | cons hd rest ih =>
    intro k store hall
    obtain ⟨pid, hpid, hne, htaken⟩ := hall hd (List.mem_cons_self hd rest)
    have hpideq : effectivePid genPid k hd = pid := by
      simp [effectivePid, hpid, hne]
    unfold insertAll
    rw [hpideq, htaken]
    simp only [if_true]
    exact ih (k + 1) store (fun log hlog => hall log (List.mem_cons_of_mem hd hlog))

/-- C2: resubmitting a batch whose entries all carry the same explicit
truthy `process_id` values (present and non-empty — a falsy value would
make the source generate a fresh uuid per call) after a successful
first submission changes nothing: the second call commits no new row
(the stored state, hence the row count, is exactly the state after the
first call) and still reports success with `total_received` equal to
the submitted count, as does the first call. -/
theorem batch_resubmission_idempotent (bid1 bid2 : String) (g1 g2 : Nat → String)
    (now1 now2 : Nat) (tenant1 tenant2 : String) (store store1 : List Row)
    (p : BatchPayload) (r1 : BatchResult)
    (hAll : ∀ log ∈ p.logs, truthy log.process_id = true)
    (h1 : storeBatchLogs bid1 g1 now1 tenant1 store p = (store1, Except.ok r1)) :
    storeBatchLogs bid2 g2 now2 tenant2 store1 p
      = (store1, Except.ok { batch_id := bid2, total_received := p.logs.length })
    ∧ r1.total_received = p.logs.length := by
  unfold storeBatchLogs at h1
  cases hins : insertAll bid1 g1 now1 tenant1 p 0 store p.logs with
  | error e => rw [hins] at h1; simp at h1
  | ok s2 =>
    rw [hins] at h1
    have hfst := congrArg Prod.fst h1
    have hsnd := congrArg Prod.snd h1
    simp only at hfst hsnd
    injection hsnd with hr1
    constructor
    · have hready : ∀ log ∈ p.logs, ∃ pid, log.process_id = some pid
          ∧ (pid == "") = false ∧ pidTaken store1 pid = true := by
        intro log hlog
        have ht := hAll log hlog
        cases hpo : log.process_id with
        | none => rw [hpo] at ht; simp [truthy] at ht
        | some pid =>
          rw [hpo] at ht
          have hne : (pid == "") = false := by
            cases hb : (pid == "") with
            | false => rfl
            | true => simp only [truthy] at ht; rw [hb] at ht; simp at ht
          refine ⟨pid, rfl, hne, ?_⟩
          have := insertAll_pids_present bid1 g1 now1 tenant1 p p.logs 0 store s2 hins
            log hlog pid hpo hne
          exact hfst ▸ this
      unfold storeBatchLogs
      rw [insertAll_noop bid2 g2 now2 tenant2 p p.logs 0 store1 hready]
    · rw [← hr1]

/-- Witness for C2: the two-entry COMP001 batch (explicit non-empty
process_ids P1 and P2) submitted onto its own first-run result is
accepted again and leaves the store untouched. -/
theorem batch_resubmission_idempotent_witness :
    storeBatchLogs "B2" (fun _ => "G") 60 "COMP001" wStore1 wPayload
      = (wStore1, Except.ok { batch_id := "B2", total_received := wPayload.logs.length })
    ∧ ({ batch_id := "B1", total_received := 2 } : BatchResult).total_received
        = wPayload.logs.length :=
  batch_resubmission_idempotent "B1" "B2" (fun _ => "G") (fun _ => "G") 50 60
    "COMP001" "COMP001" [] wStore1 wPayload { batch_id := "B1", total_received := 2 }
    (by decide) (by rfl)

/-! ## C5: the tenant binding statement -/

/-- C5 counterexample: the claim that the binding statement never
incorporates the tenant identifier by literal interpolation is false —
for the tenant COMP001 the executable statement text is literally the
fixed head followed by the tenant text wrapped in quotes, spliced in by
string concatenation. -/
theorem tenant_binding_interpolates_counterexample :
    ∃ pre post : List Char,
      pre ++ "COMP001".data ++ post = (setTenantStatement "COMP001").data :=
  ⟨setStmtHead ++ [sq], [sq], by decide⟩

/-- Doubling every quote and re-lexing the literal recovers the
original character list exactly. -/
theorem consumeLit_escTenant (cs : List Char) :
    consumeLit (escTenant cs ++ [sq]) = some (cs, []) := by
  induction cs with
  | nil => rfl
  | cons c rest ih =>
    by_cases hc : c = sq
    · subst hc
      simp [escTenant, consumeLit, consumeLitQuote, ih]
    · simp [escTenant, consumeLit, hc, ih]

/-- C5 amended: the binding statement is built by interpolating the
quote-doubled tenant identifier into the statement text, but the
encoding is safe for every possible tenant identifier string — lexing
the built statement the way the store does always recovers exactly one
quoted literal whose value is the original tenant identifier, which
therefore cannot escape the literal into executable syntax. -/
theorem tenant_binding_safely_encoded (tenant : String) :
    parseSetStatement (setTenantStatement tenant) = some tenant := by
  unfold parseSetStatement setTenantStatement
  have hdata : (String.mk (setStmtHead ++ sq :: (escTenant tenant.data ++ [sq]))).data
      = setStmtHead ++ sq :: (escTenant tenant.data ++ [sq]) := rfl
  rw [hdata, List.take_left, List.drop_left]
  rw [if_pos rfl]
  simp only [if_pos rfl]
  rw [consumeLit_escTenant]
  rfl

/-! ## C6 -/

/-- C6: a batch of more than 1000 entries is rejected by validation
with a 400 response before the batch ingestor runs; the store is
returned unchanged. -/
theorem oversized_batch_rejected (batchId : String) (genPid : Nat → String) (now : Nat)
    (tenant : String) (store : List Row) (raw : RawBatch)
    (h : 1000 < raw.logs.length) :
    handleBatch batchId genPid now tenant store raw = (store, Response.badRequest) := by
  have hnle : ¬ (raw.logs.length ≤ 1000) := Nat.not_le.mpr h
  have hb : batchOk raw = false := by
    simp [batchOk, hnle]
  unfold handleBatch validateBatch
  rw [hb]
  simp

/-- A raw entry used by the oversized-batch witness. -/
def wRawLog : RawLog where
  emp_id := none
  process_id := some "P1"
  source_app := some "MOBILE_APP"
  source_function := none
  reference_id := none
  action := some "CHECK_IN_SUCCESS"
  description := none
  created_at := none
  metadata := none

/-- A raw batch of 1001 entries. -/
def wOversizedBatch : RawBatch where
  comp_code := some "COMP001"
  app_version := none
  created_by := none
  logs := List.replicate 1001 wRawLog

/-- Witness for C6: the 1001-entry batch is rejected and the empty
store is untouched. -/
theorem oversized_batch_rejected_witness :
    handleBatch "B1" (fun _ => "G") 50 "COMP001" [] wOversizedBatch
      = ([], Response.badRequest) :=
  oversized_batch_rejected "B1" (fun _ => "G") 50 "COMP001" [] wOversizedBatch
    (by
      have hlen : wOversizedBatch.logs.length = 1001 := by
        show (List.replicate 1001 wRawLog).length = 1001
        rw [List.length_replicate]
      omega)

/-! ## C8 -/

/-- The app-endpoint query string supplying a source function. -/
def wAppRawWithSf : RawQuery where
  comp_code := some "COMP001"
  limit := none
  offset := none
  from_ := none
  to_ := none
  source_function := some "CHECK_IN"

/-- The same query string without the source-function key. -/
def wAppRawNoSf : RawQuery :=
  { wAppRawWithSf with source_function := none }

/-- C8, evaluated at the failing input: supplying `source_function` to
the by-application endpoint makes the strict `querySchema` reject the
whole request with a validation error before `getAppLogs` ever runs —
the optional source-function equality the claim (and the route
documentation) promises is unreachable; the identical request without
that key succeeds. -/
theorem app_source_function_key_rejected :
    handleAppLogs "COMP001" wStore "MOBILE_APP" wAppRawWithSf = Response.badRequest
    ∧ handleAppLogs "COMP001" wStore "MOBILE_APP" wAppRawNoSf
        = Response.okPage [wRow] 1 50 0 :=
  ⟨rfl, rfl⟩

/-! ## C9 -/

/-- C9: for every retrieval operation the returned page holds at most
`limit` rows ordered by creation time descending, and the total count is
produced by a separate count statement whose conditions coincide with
the page conditions; validation accepts `limit` exactly on [1, 200]
with default 50, and `offset` (a natural number, hence nonnegative)
defaults to 0. -/
theorem pagination_bound_and_count (tenant : String) (store : List Row)
    (fU : UserFilters) (fA : AppFilters) (fS : SearchFilters) (res : QueryResult)
    (rawLim : Option Int) (lim : Nat) :
    ((getUserLogs tenant store fU).rows.length ≤ fU.limit
      ∧ List.Sorted byCreatedDesc (getUserLogs tenant store fU).rows
      ∧ (getUserLogs tenant store fU).total_count
          = ((visibleRows tenant store).filter (userPagePred fU)).length)
    ∧ ((getAppLogs tenant store fA).rows.length ≤ fA.limit
      ∧ List.Sorted byCreatedDesc (getAppLogs tenant store fA).rows
      ∧ (getAppLogs tenant store fA).total_count
          = ((visibleRows tenant store).filter (appPagePred fA)).length)
    ∧ (searchLogs tenant store fS = Except.ok res →
      res.rows.length ≤ fS.limit
      ∧ List.Sorted byCreatedDesc res.rows
      ∧ ∃ mj, searchMeta fS = Except.ok mj
          ∧ res.total_count
              = ((visibleRows tenant store).filter (searchPagePred fS mj)).length)
    ∧ (checkLimit rawLim = some lim → 1 ≤ lim ∧ lim ≤ 200)
    ∧ (checkLimit none = some 50 ∧ checkOffset none = some 0) := by
  refine ⟨⟨length_pageRows _ _ _ _, sorted_pageRows _ _ _ _, rfl⟩,
    ⟨length_pageRows _ _ _ _, sorted_pageRows _ _ _ _, rfl⟩, ?_, ?_, rfl, rfl⟩
  · intro h
    unfold searchLogs at h
    cases hm : searchMeta fS with
    | error e => rw [hm] at h; simp at h
    | ok mj =>
      rw [hm] at h
      injection h with h2
      subst h2
      exact ⟨length_pageRows _ _ _ _, sorted_pageRows _ _ _ _, mj, rfl, rfl⟩
  · intro h
    cases rawLim with
    | none =>
      simp only [checkLimit] at h
      injection h with h2
      omega
    | some v =>
      simp only [checkLimit] at h
      by_cases hv : (1 ≤ v && v ≤ 200) = true
      · rw [if_pos hv] at h
        injection h with h2
        simp only [Bool.and_eq_true, decide_eq_true_eq] at hv
        omega
      · rw [if_neg hv] at h
        simp at h

/-- Witness for C9: the tenant-only search over the concrete two-tenant
store satisfies the page bound, the ordering and the shared-condition
count, and an explicit limit of 7 passes validation inside [1, 200]. -/
theorem pagination_bound_and_count_witness :
    (wSearchRes.rows.length ≤ wSearchF.limit
      ∧ List.Sorted byCreatedDesc wSearchRes.rows
      ∧ ∃ mj, searchMeta wSearchF = Except.ok mj
          ∧ wSearchRes.total_count
              = ((visibleRows "COMP001" wStore).filter (searchPagePred wSearchF mj)).length)
    ∧ (1 ≤ 7 ∧ 7 ≤ 200) :=
  ⟨(pagination_bound_and_count "COMP001" wStore wUserF wAppF wSearchF wSearchRes
      (some 7) 7).2.2.1 (by rfl),
   (pagination_bound_and_count "COMP001" wStore wUserF wAppF wSearchF wSearchRes
      (some 7) 7).2.2.2.1 (by rfl)⟩

/-! ## C10 -/

/-- C10: the search endpoint validates the metadata filter only as an
arbitrary string, so a value that is not valid JSON passes request
validation, is handed to the jsonb containment condition, and the
request fails through the storage-error path (500 Query failed) instead
of being rejected with a 400 validation error before store access. -/
theorem invalid_metadata_fails_at_store (tenant : String) (store : List Row)
    (raw : RawSearchQuery) (f : SearchFilters) (s : String)
    (hv : validateSearch raw = Except.ok f)
    (hm : f.metadata = some s)
    (hne : (s == "") = false)
    (hp : parseJson s = none) :
    handleSearch tenant store raw = Response.serverError := by
  have hsm : searchMeta f = Except.error StorageError.queryFailed := by
    simp [searchMeta, hm, hne, hp]
  have hsl : searchLogs tenant store f = Except.error StorageError.queryFailed := by
    simp [searchLogs, hsm]
  simp [handleSearch, hv, hsl]

/-- The raw search query carrying the non-JSON metadata filter. -/
def wSearchRawBadMeta : RawSearchQuery where
  comp_code := some "COMP001"
  limit := none
  offset := none
  from_ := none
  to_ := none
  source_app := none
  source_function := none
  reference_id := none
  created_by := none
  action := none
  metadata := some "not-json"

/-- The filters `searchSchema` produces for that query: validation
accepts the non-JSON metadata string. -/
def wSearchFBadMeta : SearchFilters where
  comp_code := "COMP001"
  limit := 50
  offset := 0
  from_ := none
  to_ := none
  source_app := none
  source_function := none
  reference_id := none
  created_by := none
  action := none
  metadata := some "not-json"

/-- Witness for C10: the query with metadata not-json passes validation
and ends in the 500 storage-error path. -/
theorem invalid_metadata_fails_at_store_witness :
    handleSearch "COMP001" [] wSearchRawBadMeta = Response.serverError :=
  invalid_metadata_fails_at_store "COMP001" [] wSearchRawBadMeta wSearchFBadMeta
    "not-json" (by rfl) rfl rfl (by rfl)

end Atls
